import Mathlib

/-!
Verification development for the online-code-compiler execution engine.

The definitions below are a shallow embedding of the JavaScript sources:
`src/services/securityService.js`, `src/services/codeExecutionService.js`,
`src/services/dockerService.js`, `src/utils/helpers.js`,
`src/utils/constants.js` and `executors/java.js`.  Pure functions are
translated as Lean functions over `List Char` / `String`; the mutable
`lastIndex` registers of the module-level `g`-flagged regexes are made an
explicit state argument; the asynchronous container life cycle is abstracted
by an outcome datatype.  JavaScript regular expressions are modelled by a
small token language covering exactly the constructs the repository uses.
-/

set_option maxRecDepth 4000

namespace OnlineCompiler

/-- JS whitespace class `\s`, restricted to its ASCII members (space, tab,
line feed, carriage return, vertical tab, form feed).  The sources only ever
match source text and the counterexamples below are ASCII, so the Unicode
members of `\s` are irrelevant here. -/
def isWsJs (c : Char) : Bool :=
  c = ' ' || c = '\t' || c = '\n' || c = '\r' || c = Char.ofNat 11 || c = Char.ofNat 12

/-- JS word class `\w`: ASCII letters, digits and underscore. -/
def isWordJs (c : Char) : Bool := c.isAlphanum || c = '_'

/-- Tokens of the regular-expression fragment used by the repository's
screening patterns: literal characters, `\s*`, `\s+`, the quote class
`['"]`, the word boundary `\b`, and the `.` wildcard (which appears when the
code interpolates strings containing dots into a regex without escaping). -/
inductive RTok where
  | ch (c : Char)
  | wsStar
  | wsPlus
  | quoteCls
  | wordB
  | anyCh
deriving DecidableEq

/-- Literal pattern for a string whose characters are all taken verbatim
(the regex metacharacters are escaped in the source, or absent). -/
def lit (s : String) : List RTok := s.data.map RTok.ch

/-- Pattern for a string interpolated into a regex without escaping: a dot
becomes the `.` wildcard, every other character is literal. -/
def litRaw (s : String) : List RTok :=
  s.data.map (fun c => if c = '.' then RTok.anyCh else RTok.ch c)

/-- Matcher for the token fragment: `matchLen ci p prev s` is the number of
characters of `s` consumed by a match of `p` anchored at the start of `s`,
`prev` being the character just before `s` (for `\b`).  Greedy matching of
`\s*` / `\s+` without backtracking is exact for every pattern in the sources,
because each `\s*` / `\s+` there is followed by a non-whitespace literal. -/
def matchLen (ci : Bool) : List RTok → Option Char → List Char → Option Nat
  | [], _, _ => some 0
  | RTok.ch c :: ts, _, x :: s =>
      if (if ci then x.toLower = c.toLower else x = c) then
        (matchLen ci ts (some x) s).map (· + 1)
      else none
  | RTok.ch _ :: _, _, [] => none
  | RTok.anyCh :: ts, _, x :: s =>
      if x = '\n' || x = '\r' then none
      else (matchLen ci ts (some x) s).map (· + 1)
  | RTok.anyCh :: _, _, [] => none
  | RTok.quoteCls :: ts, _, x :: s =>
      if x = Char.ofNat 39 || x = Char.ofNat 34 then
        (matchLen ci ts (some x) s).map (· + 1)
      else none
  | RTok.quoteCls :: _, _, [] => none
  | RTok.wsStar :: ts, prev, s =>
      let k := (s.takeWhile isWsJs).length
      (matchLen ci ts (if k = 0 then prev else (s.take k).getLast?) (s.drop k)).map (· + k)
  | RTok.wsPlus :: ts, _, s =>
      let k := (s.takeWhile isWsJs).length
      if k = 0 then none
      else (matchLen ci ts ((s.take k).getLast?) (s.drop k)).map (· + k)
  | RTok.wordB :: ts, prev, s =>
      let pw := match prev with | some c => isWordJs c | none => false
      let nw := match s with | c :: _ => isWordJs c | [] => false
      if pw ≠ nw then matchLen ci ts prev s else none

/-- Leftmost search: try to match at the current position, else advance one
character; returns the end index of the first match. -/
def searchAux (ci : Bool) (p : List RTok) : Option Char → List Char → Nat → Option Nat
  | prev, s, i =>
    match matchLen ci p prev s with
    | some k => some (i + k)
    | none =>
      match s with
      | [] => none
      | c :: t => searchAux ci p (some c) t (i + 1)

/-- Search for `p` in `s` starting at index `start` (the JS `lastIndex`);
returns the end index of the first match. -/
def searchIn (ci : Bool) (p : List RTok) (s : List Char) (start : Nat) : Option Nat :=
  let prev := if start = 0 then none else s.get? (start - 1)
  searchAux ci p prev (s.drop start) start

/-- `RegExp.prototype.test` for a `g`-flagged regex: search from `lastIndex`;
on success return `true` and set `lastIndex` to the match end, on failure
return `false` and reset `lastIndex` to `0`. -/
def testG (ci : Bool) (p : List RTok) (s : List Char) (last : Nat) : Bool × Nat :=
  match searchIn ci p s last with
  | some e => (true, e)
  | none => (false, 0)

/-- `test` for a freshly constructed regex (its `lastIndex` starts at 0 and
the object is discarded after one call, so only existence matters). -/
def testOnce (ci : Bool) (p : List RTok) (s : List Char) : Bool :=
  (searchIn ci p s 0).isSome

/-- Substring containment, `String.prototype.includes`. -/
def containsSub (needle : List Char) : List Char → Bool
  | [] => needle.isEmpty
  | c :: t => List.isPrefixOf needle (c :: t) || containsSub needle t

/-- Lower-casing, `String.prototype.toLowerCase` (ASCII adequate here). -/
def toLowerCase (s : String) : String := String.mk (s.data.map Char.toLower)

/-! ## Constants (`src/utils/constants.js`) -/

def MAX_CODE_LENGTH : Nat := 50000
def MAX_INPUT_LENGTH : Nat := 10000
/-- `MAX_OUTPUT_LENGTH` as exported by `constants.js` (100KB). -/
def MAX_OUTPUT_LENGTH : Nat := 100000

namespace EXECUTION_STATUS

def SUCCESS : String := "success"
def ERROR : String := "error"
def TIMEOUT : String := "timeout"
def MEMORY_LIMIT_EXCEEDED : String := "memory_limit_exceeded"
def COMPILATION_ERROR : String := "compilation_error"
def RUNTIME_ERROR : String := "runtime_error"

end EXECUTION_STATUS

/-- A single apostrophe, for regex source strings. -/
def aposStr : String := String.mk [Char.ofNat 39]

/-- Source text of the `require(...)` forbidden patterns. -/
def requireSrc (m : String) : String :=
  "require\\s*\\(\\s*[" ++ aposStr ++ "\"]" ++ m ++ "[" ++ aposStr ++ "\"]\\s*\\)"

/-- Token form of the `require(...)` forbidden patterns. -/
def requireToks (m : String) : List RTok :=
  lit ("require") ++ [RTok.wsStar] ++ lit ("(") ++ [RTok.wsStar, RTok.quoteCls] ++
    lit m ++ [RTok.quoteCls, RTok.wsStar] ++ lit (")")

/-- Token form of the `#include\s*<\s*HDR\s*>` forbidden patterns. -/
def includeToks (hdr : String) : List RTok :=
  lit ("#include") ++ [RTok.wsStar] ++ lit ("<") ++ [RTok.wsStar] ++
    lit hdr ++ [RTok.wsStar] ++ lit (">")

/-- Model of `SECURITY_CONFIG.FORBIDDEN_PATTERNS`: the seventeen module-level
regexes, each as (regex source text, token form).  All are compiled with the
`gi` flags: matching is case-insensitive and, because of `g`, each regex
object carries a mutable `lastIndex` between calls. -/
def FORBIDDEN_PATTERNS : List (String × List RTok) := [
  ("import\\s+os", lit ("import") ++ [RTok.wsPlus] ++ lit ("os")),
  ("import\\s+sys", lit ("import") ++ [RTok.wsPlus] ++ lit ("sys")),
  ("import\\s+subprocess", lit ("import") ++ [RTok.wsPlus] ++ lit ("subprocess")),
  ("import\\s+socket", lit ("import") ++ [RTok.wsPlus] ++ lit ("socket")),
  (requireSrc ("fs"), requireToks ("fs")),
  (requireSrc ("child_process"), requireToks ("child_process")),
  (requireSrc ("net"), requireToks ("net")),
  ("#include\\s*<\\s*stdlib\\.h\\s*>", includeToks ("stdlib.h")),
  ("#include\\s*<\\s*unistd\\.h\\s*>", includeToks ("unistd.h")),
  ("system\\s*\\(", lit ("system") ++ [RTok.wsStar] ++ lit ("(")),
  ("exec\\s*\\(", lit ("exec") ++ [RTok.wsStar] ++ lit ("(")),
  ("eval\\s*\\(", lit ("eval") ++ [RTok.wsStar] ++ lit ("(")),
  ("Runtime\\.getRuntime\\(\\)\\.exec", lit ("Runtime.getRuntime().exec")),
  ("ProcessBuilder", lit ("ProcessBuilder")),
  ("\\.\\.\\/", lit ("../")),
  ("\\/etc\\/passwd", lit ("/etc/passwd")),
  ("\\/proc\\/", lit ("/proc/"))]

/-- Pristine pattern state: every `lastIndex` is 0 (a freshly loaded module). -/
def st0 : List Nat := List.replicate 17 0

/-- The generic-pattern loop of `validateCode`: runs `pattern.test(code)` on
each shared pattern in order, threading the `lastIndex` state, and collects
the "Code contains forbidden pattern" messages. -/
def runGeneric (code : List Char) : List (String × List RTok) → List Nat → List String × List Nat
  | [], _ => ([], [])
  | sp :: ps, st =>
    let r := testG true sp.2 code (st.headD 0)
    let rest := runGeneric code ps st.tail
    ((if r.1 then ["Code contains forbidden pattern: " ++ sp.1] else []) ++ rest.1,
     r.2 :: rest.2)

/-! ## Language-specific screening (`SecurityService.validate*Code`).
These regexes are rebuilt with `new RegExp(..., 'gi')` on every call and each
is tested exactly once per call, so they are stateless. -/

def pythonDangerousImports : List String :=
  ["os", "sys", "subprocess", "socket", "urllib", "requests",
   "shutil", "glob", "tempfile", "pickle", "marshal"]

def pythonDangerousFunctions : List String :=
  ["exec", "eval", "__import__", "compile", "open", "file"]

def validatePythonCode (code : List Char) : List String :=
  (pythonDangerousImports.filterMap (fun imp =>
    if testOnce true (lit ("import") ++ [RTok.wsPlus] ++ lit imp) code
        || testOnce true
          (lit ("from") ++ [RTok.wsPlus] ++ lit imp ++ [RTok.wsPlus] ++ lit ("import")) code
    then some ("Dangerous import detected: " ++ imp) else none))
  ++ (pythonDangerousFunctions.filterMap (fun f =>
    if testOnce true ([RTok.wordB] ++ lit f ++ [RTok.wsStar] ++ lit ("(")) code
    then some ("Dangerous function detected: " ++ f) else none))

def jsDangerousModules : List String :=
  ["fs", "child_process", "net", "http", "https", "crypto",
   "os", "path", "stream", "util", "vm"]

def jsDangerousGlobals : List String := ["process", "global", "__dirname", "__filename"]

def validateJavaScriptCode (code : List Char) : List String :=
  (jsDangerousModules.filterMap (fun m =>
    if testOnce true (requireToks m) code
    then some ("Dangerous module detected: " ++ m) else none))
  ++ (jsDangerousGlobals.filterMap (fun g =>
    if testOnce true ([RTok.wordB] ++ lit g ++ [RTok.wordB]) code
    then some ("Dangerous global object detected: " ++ g) else none))

def cppDangerousIncludes : List String :=
  ["cstdlib", "stdlib.h", "unistd.h", "sys/", "windows.h",
   "process.h", "signal.h", "fcntl.h"]

def cppDangerousFunctions : List String := ["system", "exec", "fork", "kill", "exit"]

def validateCppCode (code : List Char) : List String :=
  (cppDangerousIncludes.filterMap (fun inc =>
    if testOnce true (lit ("#include") ++ [RTok.wsStar] ++ lit ("<") ++ litRaw inc) code
    then some ("Dangerous include detected: " ++ inc) else none))
  ++ (cppDangerousFunctions.filterMap (fun f =>
    if testOnce true ([RTok.wordB] ++ lit f ++ [RTok.wsStar] ++ lit ("(")) code
    then some ("Dangerous function detected: " ++ f) else none))

def javaDangerousImports : List String :=
  ["java.io.File", "java.net", "java.lang.Runtime", "java.lang.ProcessBuilder",
   "java.nio.file", "java.security", "javax.script"]

/-- Model of the Java "dangerous method" patterns.  `validateJavaCode`
escapes only the dots of each method string, so the parentheses in
`Runtime.getRuntime().exec` become an empty regex group and the effective
pattern is the literal `Runtime.getRuntime.exec`.  The first component keeps
the original method string used in the error message. -/
def javaDangerousMethods : List (String × List RTok) := [
  ("Runtime.getRuntime().exec", lit ("Runtime.getRuntime.exec")),
  ("ProcessBuilder", lit ("ProcessBuilder")),
  ("System.exit", lit ("System.exit")),
  ("File.", lit ("File.")),
  ("Files.", lit ("Files."))]

def validateJavaCode (code : List Char) : List String :=
  (javaDangerousImports.filterMap (fun imp =>
    if testOnce true (lit ("import") ++ [RTok.wsPlus] ++ lit imp) code
    then some ("Dangerous import detected: " ++ imp) else none))
  ++ (javaDangerousMethods.filterMap (fun mp =>
    if testOnce true mp.2 code
    then some ("Dangerous method detected: " ++ mp.1) else none))

def langSpecificErrors (code : List Char) : String → List String
  | "python" => validatePythonCode code
  | "javascript" => validateJavaScriptCode code
  | "cpp" => validateCppCode code
  | "java" => validateJavaCode code
  | _ => []

structure ScreenResult where
  isValid : Bool
  errors : List String
deriving DecidableEq

namespace SecurityService

/-- Model of `SecurityService.validateCode` from `securityService.js`, with
the `lastIndex` registers of the shared module-level `FORBIDDEN_PATTERNS`
made an explicit argument and result (the JS regex objects carry that state
between calls because of the `g` flag).  Note the empty-code early return
leaves the pattern state untouched, and the language-specific regexes are
fresh per call. -/
def validateCode (code : String) (language : String) (st : List Nat) :
    ScreenResult × List Nat :=
  let cs := code.data
  if cs.all isWsJs then
    ({ isValid := false, errors := ["Code cannot be empty"] }, st)
  else
    let lenErrs :=
      if cs.length > MAX_CODE_LENGTH then
        ["Code exceeds maximum length of 50000 characters"]
      else []
    let g := runGeneric cs FORBIDDEN_PATTERNS st
    let errs := lenErrs ++ g.1 ++ langSpecificErrors cs language
    ({ isValid := errs.isEmpty, errors := errs }, g.2)

/-- Model of the `maliciousPatterns` check of `SecurityService.validateInput`:
NUL bytes, directory traversal, angle brackets, and the `javascript:` /
`data:` schemes (those two case-insensitively).  The patterns are rebuilt on
every call, so this check is stateless; the loop breaks on the first hit, so
at most one message is produced. -/
def inputMalicious (s : List Char) : Bool :=
  containsSub [Char.ofNat 0] s
  || containsSub (("../").data) s
  || s.any (fun c => c = '<' || c = '>')
  || testOnce true (lit ("javascript:")) s
  || testOnce true (lit ("data:")) s

/-- Model of `SecurityService.validateInput`. -/
def validateInput (input : String) : ScreenResult :=
  let lenErrs :=
    if ¬ input.data.isEmpty ∧ input.data.length > MAX_INPUT_LENGTH then
      ["Input exceeds maximum length of 10000 characters"]
    else []
  let malErrs :=
    if inputMalicious input.data then
      ["Input contains potentially malicious content"]
    else []
  let errs := lenErrs ++ malErrs
  { isValid := errs.isEmpty, errors := errs }

/-- Replace every `\r\n` by `\n` (left to right, non-overlapping). -/
def stripCRLF : List Char → List Char
  | [] => []
  | '\r' :: '\n' :: t => '\n' :: stripCRLF t
  | c :: t => c :: stripCRLF t

/-- Replace every maximal run of three or more `\n` by exactly two
(`code.replace(/\n{3,}/g, '\n\n')`), structurally recursive on a fuel that
bounds the scanned length (every step consumes at least one character). -/
def collapseNLFuel : Nat → List Char → List Char
  | 0, s => s
  | _ + 1, [] => []
  | f + 1, c :: t =>
    if c = '\n' then
      let k := (t.takeWhile (fun x => x = '\n')).length
      (if k + 1 ≥ 3 then ['\n', '\n'] else List.replicate (k + 1) '\n')
        ++ collapseNLFuel f (t.drop k)
    else c :: collapseNLFuel f t

def collapseNL (s : List Char) : List Char := collapseNLFuel s.length s

/-- Remove trailing JS whitespace (per-line `trimEnd`). -/
def trimEndChars (l : List Char) : List Char := (l.reverse.dropWhile isWsJs).reverse

/-- Remove leading and trailing JS whitespace (`trim`). -/
def trimChars (l : List Char) : List Char :=
  ((l.dropWhile isWsJs).reverse.dropWhile isWsJs).reverse

/-- Model of `SecurityService.sanitizeCode`: drop NUL bytes, normalize line
endings, collapse runs of 3+ newlines to 2, strip trailing whitespace from
each line, then trim both ends. -/
def sanitizeCode (code : String) : String :=
  if code.data.isEmpty then "" else
  let s0 := code.data.filter (fun c => c ≠ Char.ofNat 0)
  let s1 := (stripCRLF s0).map (fun c => if c = '\r' then '\n' else c)
  let s2 := collapseNL s1
  let lines := List.splitOn '\n' s2
  let s3 := List.intercalate ['\n'] (lines.map trimEndChars)
  String.mk (trimChars s3)

/-- Model of `SecurityService.sanitizeInput`: NUL removal, line-ending
normalization, newline-run collapsing, then trim (no per-line trimEnd). -/
def sanitizeInput (input : String) : String :=
  if input.data.isEmpty then "" else
  let s0 := input.data.filter (fun c => c ≠ Char.ofNat 0)
  let s1 := (stripCRLF s0).map (fun c => if c = '\r' then '\n' else c)
  String.mk (trimChars (collapseNL s1))

end SecurityService

/-! ## Helpers (`src/utils/helpers.js`) -/

namespace Helpers

def SUPPORTED_LANGUAGES : List String := ["python", "javascript", "cpp", "java"]

/-- Model of `Helpers.validateLanguage`. -/
def validateLanguage (language : String) : Bool := SUPPORTED_LANGUAGES.contains language

/-- Model of `LANGUAGE_EXTENSIONS` (constants.js). -/
def LANGUAGE_EXTENSIONS (language : String) : Option String :=
  if language = "python" then some (".py")
  else if language = "javascript" then some (".js")
  else if language = "cpp" then some (".cpp")
  else if language = "java" then some (".java")
  else none

def getFileExtension (language : String) : String :=
  (LANGUAGE_EXTENSIONS language).getD (".txt")

/-- Model of `Helpers.generateFileName`: the name of the source file written
to the per-execution directory.  It depends only on the language — `Main.java`
for Java, `main<ext>` otherwise — never on the submitted source text. -/
def generateFileName (language : String) (_executionId : String) : String :=
  if language = "java" then "Main.java" else "main" ++ getFileExtension language

/-- Length of the maximal non-whitespace prefix (for the `[^\s]+` part of
the path-redaction regexes). -/
def nonWsRun (s : List Char) : Nat := (s.takeWhile (fun c => !isWsJs c)).length

/-- One path-redaction pass, `output.replace(/PRE[^\s]+/g, repl)`: scan left to
right; wherever the literal prefix `pre` is followed by at least one
non-whitespace character, replace the prefix and the maximal non-whitespace
run by `repl` and continue after it.  The fuel argument is the length of the
scanned list, which suffices because every step consumes at least one
character. -/
def replacePathRefs (pre repl : List Char) : Nat → List Char → List Char
  | 0, s => s
  | _ + 1, [] => []
  | f + 1, c :: rest =>
    let s := c :: rest
    let k := nonWsRun (s.drop pre.length)
    if List.isPrefixOf pre s && k != 0 then
      repl ++ replacePathRefs pre repl f (s.drop (pre.length + k))
    else
      c :: replacePathRefs pre repl f rest

def replaceAllRefs (pre repl s : List Char) : List Char :=
  replacePathRefs pre repl s.length s

/-- The three redaction passes of `Helpers.sanitizeOutput`, in source order. -/
def redactPaths (s : List Char) : List Char :=
  replaceAllRefs (("/var/").data) (("[system_file]").data)
    (replaceAllRefs (("/home/").data) (("[user_file]").data)
      (replaceAllRefs (("/tmp/").data) (("[temp_file]").data) s))

def OUTPUT_TRUNCATION_MARKER : String := "\n... (output truncated)"

/-- Model of `Helpers.sanitizeOutput`.  NOTE: the JS function declares a
local `MAX_OUTPUT_LENGTH = 10000` which shadows the `100000` exported from
`constants.js`; the truncation threshold really is 10,000 characters. -/
def sanitizeOutput (output : String) : String :=
  if output.data.isEmpty then "" else
  let r := redactPaths output.data
  if r.length > 10000 then String.mk (r.take 10000 ++ OUTPUT_TRUNCATION_MARKER.data)
  else String.mk r

end Helpers

/-! ## Standalone Java executor (`executors/java.js`) -/

namespace JavaExecutor

/-- Search for the pattern followed by a captured `(\w+)`: at each start
position, if the prefix matches and at least one word character follows, the
capture is the maximal word run; otherwise move one character right.
(Backtracking inside `\s+` cannot rescue a failed position, since a
whitespace character is never a word character.) -/
def searchCapture (p : List RTok) : Option Char → List Char → Option (List Char)
  | prev, s =>
    match matchLen false p prev s with
    | some k =>
      let name := (s.drop k).takeWhile isWordJs
      if name.length ≠ 0 then some name
      else
        match s with
        | [] => none
        | c :: t => searchCapture p (some c) t
    | none =>
      match s with
      | [] => none
      | c :: t => searchCapture p (some c) t

/-- Model of `JavaExecutor.extractClassName`: the identifier of the first
`public class` declaration, else of the first `class` declaration, else
`Main`.  Case-sensitive (the regexes have no `i` flag). -/
def extractClassName (code : String) : String :=
  match searchCapture (lit ("public") ++ [RTok.wsPlus] ++ lit ("class") ++ [RTok.wsPlus])
      none code.data with
  | some n => String.mk n
  | none =>
    match searchCapture (lit ("class") ++ [RTok.wsPlus]) none code.data with
    | some n => String.mk n
    | none => "Main"

end JavaExecutor

/-! ## Docker service (`src/services/dockerService.js`) -/

structure LangConfig where
  image : String
  cmd : List String
  workingDir : String
  memoryLimit : String
  cpuLimit : Rat
  timeout : Nat
deriving DecidableEq

def pythonConfig : LangConfig :=
  { image := "python:3.9-alpine", cmd := ["python", "/app/main.py"], workingDir := "/app",
    memoryLimit := "128m", cpuLimit := (1 : Rat) / 2, timeout := 30000 }

def javascriptConfig : LangConfig :=
  { image := "node:16-alpine", cmd := ["node", "/app/main.js"], workingDir := "/app",
    memoryLimit := "128m", cpuLimit := (1 : Rat) / 2, timeout := 30000 }

def cppConfig : LangConfig :=
  { image := "gcc:9-alpine", cmd := ["/bin/sh", "-c", "cd /app && g++ -o main main.cpp && ./main"],
    workingDir := "/app", memoryLimit := "128m", cpuLimit := (1 : Rat) / 2, timeout := 45000 }

def javaConfig : LangConfig :=
  { image := "openjdk:11-alpine", cmd := ["/bin/sh", "-c", "cd /app && javac Main.java && java Main"],
    workingDir := "/app", memoryLimit := "128m", cpuLimit := (1 : Rat) / 2, timeout := 45000 }

/-- Model of `DockerService.containerConfigs` with the environment variables
`MAX_MEMORY`, `MAX_CPU`, `DOCKER_TIMEOUT` unset, i.e. at their coded
fallbacks (`'128m'`, `0.5`, 30,000 / 45,000 ms). -/
def containerConfigs (language : String) : Option LangConfig :=
  if language = "python" then some pythonConfig
  else if language = "javascript" then some javascriptConfig
  else if language = "cpp" then some cppConfig
  else if language = "java" then some javaConfig
  else none

/-- Model of `DockerService.parseMemoryLimit`: parse `^(\d+)([kmg]?)b?$`
case-insensitively, defaulting to 128MB on mismatch. -/
def parseMemoryLimit (s : String) : Nat :=
  let cs := s.data
  let ds := cs.takeWhile Char.isDigit
  let rest := (cs.drop ds.length).map Char.toLower
  if ds.length = 0 then 128 * 1024 * 1024
  else
    let value := (String.mk ds).toNat!
    match rest with
    | [] => value
    | ['b'] => value
    | ['k'] => value * 1024
    | ['m'] => value * 1024 * 1024
    | ['g'] => value * 1024 * 1024 * 1024
    | ['k', 'b'] => value * 1024
    | ['m', 'b'] => value * 1024 * 1024
    | ['g', 'b'] => value * 1024 * 1024 * 1024
    | _ => 128 * 1024 * 1024

structure Ulimit where
  name : String
  soft : Nat
  hard : Nat
deriving DecidableEq

structure ContainerOptions where
  image : String
  cmd : List String
  workingDir : String
  attachStdout : Bool
  attachStderr : Bool
  attachStdin : Bool
  openStdin : Bool
  stdinOnce : Bool
  tty : Bool
  networkMode : String
  memory : Nat
  cpuQuota : Int
  cpuPeriod : Nat
  pidsLimit : Nat
  ulimits : List Ulimit
  binds : List String
  readonlyRootfs : Bool
  securityOpt : List String
  capDrop : List String
  autoRemove : Bool
deriving DecidableEq

/-- Model of `DockerService.buildContainerOptions`: the full parameter block
for `docker.createContainer`, identical for every language configuration up
to image/command and the stdin flags. -/
def buildContainerOptions (config : LangConfig) (tempDir : String)
    (inputNonEmpty : Bool) : ContainerOptions :=
  { image := config.image,
    cmd := config.cmd,
    workingDir := config.workingDir,
    attachStdout := true,
    attachStderr := true,
    attachStdin := inputNonEmpty,
    openStdin := inputNonEmpty,
    stdinOnce := inputNonEmpty,
    tty := false,
    networkMode := "none",
    memory := parseMemoryLimit config.memoryLimit,
    cpuQuota := Rat.floor (config.cpuLimit * 100000),
    cpuPeriod := 100000,
    pidsLimit := 50,
    ulimits := [{ name := "nofile", soft := 64, hard := 64 },
                { name := "nproc", soft := 32, hard := 32 }],
    binds := [tempDir ++ ":/app:rw"],
    readonlyRootfs := false,
    securityOpt := ["no-new-privileges"],
    capDrop := ["ALL"],
    autoRemove := false }

/-- Model of `DockerService.getErrorStatus`: keyword scan over the lowered
error message, in source order. -/
def getErrorStatus (message : String) : String :=
  if containsSub (("timeout").data) ((toLowerCase message).data) then
    EXECUTION_STATUS.TIMEOUT
  else if containsSub (("memory").data) ((toLowerCase message).data) then
    EXECUTION_STATUS.MEMORY_LIMIT_EXCEEDED
  else if containsSub (("compilation").data) ((toLowerCase message).data)
      || containsSub (("compile").data) ((toLowerCase message).data) then
    EXECUTION_STATUS.COMPILATION_ERROR
  else EXECUTION_STATUS.ERROR

/-- Model of `DockerService.formatError` (case-sensitive `includes` on the
original message). -/
def formatError (message : String) : String :=
  if containsSub (("timeout").data) message.data then
    "Code execution timed out. Please optimize your code or reduce complexity."
  else if containsSub (("memory").data) message.data then
    "Memory limit exceeded. Please optimize your code to use less memory."
  else "Execution error: " ++ message

/-- Memory numbers reported by the single `getContainerStats` call (or its
zero fallback when the stats query itself failed). -/
structure MemStats where
  used : Nat
  limit : Nat
deriving DecidableEq

/-- Outcome of `waitForContainerCompletion` for one execution. -/
inductive WaitOutcome where
  /-- `container.wait()` resolved first: demultiplexed stdout/stderr and the
  exit code (`result.StatusCode`). -/
  | completed (output : String) (error : String) (exitCode : Int)
  /-- the deadline timer fired first: `container.kill()` is attempted and the
  promise rejects with `Error('Execution timeout')`. -/
  | timedOut
  /-- some other exception (daemon unreachable, create/attach failure, …)
  with its message; no container is known to have been created. -/
  | failed (message : String)
deriving DecidableEq

/-- Result record of `DockerService.executeCode`, together with the model's
observation fields: how many times container stats were queried, whether the
container was signal-killed, the name and content of the source file written
to the workspace, and the options the container was created with (set on the
paths where a container demonstrably exists). -/
structure DockerResult where
  status : String
  output : String
  error : String
  exitCode : Int
  memUsed : Nat := 0
  memLimit : Nat := 0
  statsQueries : Nat := 0
  containerKilled : Bool := false
  writtenFileName : Option String := none
  writtenCode : Option String := none
  containerOptions : Option ContainerOptions := none
deriving DecidableEq

/-- Per-execution workspace directory, `os.tmpdir()` modelled as `/tmp`. -/
def tempDirFor (executionId : String) : String := "/tmp/code_exec_" ++ executionId

namespace DockerService

/-- Model of `DockerService.executeCode`.  The asynchronous container life
cycle is abstracted by `WaitOutcome` (what `waitForContainerCompletion`
produced) and `MemStats` (what the post-termination `getContainerStats` call
reports when it is made).  On the completed path the status is decided by the
exit code alone, stats are queried exactly once, and output/error go through
`Helpers.sanitizeOutput`; on the rejected paths the catch block classifies
the thrown message via `getErrorStatus` and never queries stats. -/
def executeCode (language code input executionId : String) (w : WaitOutcome)
    (stats : MemStats) : DockerResult :=
  match containerConfigs language with
  | none =>
    let msg := "Unsupported language: " ++ language
    { status := getErrorStatus msg, output := "", error := formatError msg, exitCode := -1 }
  | some config =>
    let fileName := Helpers.generateFileName language executionId
    let opts := buildContainerOptions config (tempDirFor executionId) (!input.data.isEmpty)
    match w with
    | WaitOutcome.completed out err ec =>
      { status := if ec = 0 then EXECUTION_STATUS.SUCCESS else EXECUTION_STATUS.RUNTIME_ERROR,
        output := Helpers.sanitizeOutput out,
        error := Helpers.sanitizeOutput err,
        exitCode := ec,
        memUsed := stats.used,
        memLimit := stats.limit,
        statsQueries := 1,
        containerKilled := false,
        writtenFileName := some fileName,
        writtenCode := some code,
        containerOptions := some opts }
    | WaitOutcome.timedOut =>
      { status := getErrorStatus ("Execution timeout"),
        output := "",
        error := formatError ("Execution timeout"),
        exitCode := -1,
        statsQueries := 0,
        containerKilled := true,
        writtenFileName := some fileName,
        writtenCode := some code,
        containerOptions := some opts }
    | WaitOutcome.failed msg =>
      { status := getErrorStatus msg,
        output := "",
        error := formatError msg,
        exitCode := -1,
        statsQueries := 0,
        containerKilled := false }

end DockerService

/-! ## Execution orchestrator (`src/services/codeExecutionService.js`) -/

structure ExecRequest where
  language : String
  code : String
  input : String
deriving DecidableEq

structure ExecResponse where
  success : Bool
  status : String
  output : String
  error : String
  exitCode : Int
  /-- the `(language, code, input)` triple passed to
  `dockerService.executeCode`, `none` when the sandbox is never invoked
  (and hence no workspace is created: the workspace is created inside
  `dockerService.executeCode`). -/
  dockerArgs : Option (String × String × String)
deriving DecidableEq

namespace CodeExecutionService

/-- Model of `CodeExecutionService.createErrorResponse` (status is always the
generic `EXECUTION_STATUS.ERROR`). -/
def createErrorResponse (errorMessage : String) : ExecResponse :=
  { success := false, status := EXECUTION_STATUS.ERROR, output := "",
    error := errorMessage, exitCode := -1, dockerArgs := none }

/-- Model of `CodeExecutionService.executeCode`.  `st` is the `lastIndex`
state of the shared forbidden patterns, `userExceeded` abstracts
`userInfo.hasExceededDailyLimit()`, and `docker` is the result
`dockerService.executeCode` returns when (and only when) it is invoked.
The persistence/statistics calls do not influence the response and are not
modelled; `generateSecurityReport` is modelled only through its second
`validateCode` call, which advances the shared pattern state once more. -/
def executeCode (req : ExecRequest) (st : List Nat) (userExceeded : Bool)
    (docker : DockerResult) : ExecResponse × List Nat :=
  if !Helpers.validateLanguage req.language then
    (createErrorResponse ("Unsupported language: " ++ req.language), st)
  else
    let v := SecurityService.validateCode req.code req.language st
    if !v.1.isValid then
      (createErrorResponse ("Code validation failed: " ++
        String.intercalate (", ") v.1.errors), v.2)
    else
      let iv := SecurityService.validateInput req.input
      if !iv.isValid then
        (createErrorResponse ("Input validation failed: " ++
          String.intercalate (", ") iv.errors), v.2)
      else if userExceeded then
        (createErrorResponse ("Daily execution limit exceeded"), v.2)
      else
        let sc := SecurityService.sanitizeCode req.code
        let si := SecurityService.sanitizeInput req.input
        let rep := SecurityService.validateCode sc req.language v.2
        ({ success := true, status := docker.status, output := docker.output,
           error := docker.error, exitCode := docker.exitCode,
           dockerArgs := some (req.language, sc, si) }, rep.2)

end CodeExecutionService

/-- Fixed Docker result used to instantiate the `docker` oracle in closed
counterexamples where the sandbox is (or must not be) reached. -/
def dummyDocker : DockerResult :=
  { status := "success", output := "", error := "", exitCode := 0 }

/-- A Java submission declaring `public class Solution`. -/
def solutionSource : String :=
  "public class Solution \x7b public static void main(String[] args) \x7b \x7d \x7d"

/-- A Python submission whose forbidden `import os` is split by a NUL byte:
the raw text matches no forbidden pattern, its sanitized form does. -/
def nulSource : String := "im\x00port os"

/-! ## Theorems -/

/-- Claim C6 (code bug): the Screener is not a pure deterministic function.
The shared `gi`-flagged `FORBIDDEN_PATTERNS` keep their `lastIndex` between
calls, so `validateCode('import os', 'java')` called twice in succession in
one process first rejects (the generic `import\s+os` pattern fires, leaving
its `lastIndex` at 9) and then accepts the very same source. -/
theorem C6_screener_statefulness :
    (SecurityService.validateCode ("import os") "java" st0).1.isValid = false ∧
    (SecurityService.validateCode ("import os") "java" st0).2 ≠ st0 ∧
    (SecurityService.validateCode ("import os") "java"
        ((SecurityService.validateCode ("import os") "java" st0).2)).1.isValid = true := by
  decide

/-- Claim C1 counterexample: a Screener-rejected request is answered with
the generic status `EXECUTION_STATUS.ERROR` — the same status value the
service returns for an unrelated failure (the daily execution limit) — not
with a distinct `ValidationRejected` status (`EXECUTION_STATUS` has no such
member); the sandbox is not invoked. -/
theorem C1_counterexample :
    (SecurityService.validateCode ("import os") "python" st0).1.isValid = false ∧
    (CodeExecutionService.executeCode ⟨"python", "import os", ""⟩ st0 false dummyDocker).1.status
      = EXECUTION_STATUS.ERROR ∧
    (CodeExecutionService.executeCode ⟨"python", "print(1)", ""⟩ st0 true dummyDocker).1.status
      = (CodeExecutionService.executeCode ⟨"python", "import os", ""⟩ st0 false dummyDocker).1.status ∧
    (CodeExecutionService.executeCode ⟨"python", "import os", ""⟩ st0 false dummyDocker).1.dockerArgs
      = none := by
  decide

/-- Claim C2 counterexample: a container that exits with the OOM-kill code
137 while the queried stats report memory usage equal to the 128MB cap is
classified `runtime_error`, not `memory_limit_exceeded` — the stats value is
recorded but never overrides the exit-code classification. -/
theorem C2_counterexample :
    (DockerService.executeCode "python" "x" "" "e1"
        (WaitOutcome.completed "" ("Killed") 137) ⟨134217728, 134217728⟩).memUsed
      = (DockerService.executeCode "python" "x" "" "e1"
        (WaitOutcome.completed "" ("Killed") 137) ⟨134217728, 134217728⟩).memLimit ∧
    (DockerService.executeCode "python" "x" "" "e1"
        (WaitOutcome.completed "" ("Killed") 137) ⟨134217728, 134217728⟩).status
      = EXECUTION_STATUS.RUNTIME_ERROR ∧
    (DockerService.executeCode "python" "x" "" "e1"
        (WaitOutcome.completed "" ("Killed") 137) ⟨134217728, 134217728⟩).status
      ≠ EXECUTION_STATUS.MEMORY_LIMIT_EXCEEDED := by
  decide

/-- Claim C5 counterexample: a compiled-language (single compile-then-run
command) container exiting nonzero with unmistakable compiler diagnostics on
stderr is classified `runtime_error`, not `compilation_error` — stderr is
never inspected for classification on the normal exit path. -/
theorem C5_counterexample :
    (DockerService.executeCode "cpp" "int main()\x7breturn" "" "e2"
        (WaitOutcome.completed "" ("main.cpp:1:18: error: expected expression") 1)
        ⟨0, 0⟩).status = EXECUTION_STATUS.RUNTIME_ERROR ∧
    (DockerService.executeCode "cpp" "int main()\x7breturn" "" "e2"
        (WaitOutcome.completed "" ("main.cpp:1:18: error: expected expression") 1)
        ⟨0, 0⟩).status ≠ EXECUTION_STATUS.COMPILATION_ERROR := by
  decide

/-- Claim C4 counterexample: in the Docker pipeline the file written for a
Java submission declaring `public class Solution` is the fixed `Main.java`,
not `Solution.java` — even though the standalone `JavaExecutor` would derive
`Solution` from the same source. -/
theorem C4_counterexample :
    (DockerService.executeCode "java" solutionSource "" "e4"
        (WaitOutcome.completed "" "" 0) ⟨0, 0⟩).writtenFileName = some ("Main.java") ∧
    JavaExecutor.extractClassName solutionSource = "Solution" ∧
    (DockerService.executeCode "java" solutionSource "" "e4"
        (WaitOutcome.completed "" "" 0) ⟨0, 0⟩).writtenFileName
      ≠ some (JavaExecutor.extractClassName solutionSource ++ ".java") := by
  decide

/-- Claim C7 counterexample: the Screener matches the raw source, not the
sanitized one.  For `im\x00port os` (python) validation passes — the NUL
splits the forbidden token — yet the sanitized source written to the
workspace is exactly `import os`, which the same Screener rejects; the
sandbox is invoked with the forbidden program. -/
theorem C7_counterexample :
    (SecurityService.validateCode nulSource "python" st0).1.isValid = true ∧
    SecurityService.sanitizeCode nulSource = "import os" ∧
    (SecurityService.validateCode ("import os") "python" st0).1.isValid = false ∧
    (CodeExecutionService.executeCode ⟨"python", nulSource, ""⟩ st0 false dummyDocker).1.dockerArgs
      = some ("python", "import os", "") := by
  decide

/-- Claim C10 counterexample: a request whose stdin contains `<` (within the
documented bounds) is not answered with the input-validation message when
the source itself already fails code validation — code validation runs
first, so the quantification over every such request fails. -/
theorem C10_counterexample :
    SecurityService.inputMalicious (("a<b").data) = true ∧
    (("a<b").data).length ≤ MAX_INPUT_LENGTH ∧
    (CodeExecutionService.executeCode ⟨"python", "import os", "a<b"⟩ st0 false dummyDocker).1.error
      ≠ "Input validation failed: Input contains potentially malicious content" := by
  decide

/-- Claim C1 as amended: when the language is supported and the Screener
rejects, `executeCode` returns immediately — the sandbox is never invoked
and hence no workspace is created — a response equal to
`createErrorResponse` of `'Code validation failed: '` followed by the
violation reasons joined with `', '`; that response carries the generic
status `'error'` (not a distinct `ValidationRejected` value, which the
status enumeration does not contain) and no separate violations list. -/
theorem C1_amended_rejection_response
    (req : ExecRequest) (st : List Nat) (userExceeded : Bool) (docker : DockerResult)
    (hlang : Helpers.validateLanguage req.language = true)
    (hval : (SecurityService.validateCode req.code req.language st).1.isValid = false) :
    (CodeExecutionService.executeCode req st userExceeded docker).1 =
      CodeExecutionService.createErrorResponse ("Code validation failed: " ++
        String.intercalate (", ")
          (SecurityService.validateCode req.code req.language st).1.errors) := by
  unfold CodeExecutionService.executeCode
  simp only [hlang, hval, Bool.not_true, Bool.not_false, if_true, if_false, Bool.false_eq_true,
    ite_false, ite_true]

/-- Witness for the amended claim C1 at a concrete rejected request. -/
theorem C1_amended_witness :
    (CodeExecutionService.executeCode ⟨"python", "import os", ""⟩ st0 false dummyDocker).1 =
      CodeExecutionService.createErrorResponse ("Code validation failed: " ++
        String.intercalate (", ")
          (SecurityService.validateCode ("import os") "python" st0).1.errors) :=
  C1_amended_rejection_response ⟨"python", "import os", ""⟩ st0 false dummyDocker
    (by decide) (by decide)

/-- Claim C2 as amended: after a normal container exit the supervisor
queries stats exactly once and records the reported memory usage in the
result, but the status is decided by the exit code alone (`success` iff 0,
else `runtime_error`); reaching the memory cap does not override that
classification (`memory_limit_exceeded` arises only from thrown error
messages containing `'memory'`). -/
theorem C2_amended_stats_no_override
    (language code input executionId out err : String) (ec : Int)
    (stats : MemStats) (cfg : LangConfig)
    (h : containerConfigs language = some cfg) :
    (DockerService.executeCode language code input executionId
        (WaitOutcome.completed out err ec) stats).statsQueries = 1 ∧
    (DockerService.executeCode language code input executionId
        (WaitOutcome.completed out err ec) stats).memUsed = stats.used ∧
    (DockerService.executeCode language code input executionId
        (WaitOutcome.completed out err ec) stats).memLimit = stats.limit ∧
    (DockerService.executeCode language code input executionId
        (WaitOutcome.completed out err ec) stats).status =
      (if ec = 0 then EXECUTION_STATUS.SUCCESS else EXECUTION_STATUS.RUNTIME_ERROR) := by
  unfold DockerService.executeCode
  rw [h]
  exact ⟨rfl, rfl, rfl, rfl⟩

/-- Witness for the amended claim C2 at a concrete OOM-looking exit. -/
theorem C2_amended_witness :
    (DockerService.executeCode "python" "x" "" "e1"
        (WaitOutcome.completed "" ("Killed") 137) ⟨134217728, 134217728⟩).statsQueries = 1 ∧
    (DockerService.executeCode "python" "x" "" "e1"
        (WaitOutcome.completed "" ("Killed") 137) ⟨134217728, 134217728⟩).memUsed = 134217728 ∧
    (DockerService.executeCode "python" "x" "" "e1"
        (WaitOutcome.completed "" ("Killed") 137) ⟨134217728, 134217728⟩).status =
      EXECUTION_STATUS.RUNTIME_ERROR := by
  have h := C2_amended_stats_no_override "python" "x" "" "e1" "" ("Killed") 137
    ⟨134217728, 134217728⟩ pythonConfig rfl
  exact ⟨h.1, h.2.1, by rw [h.2.2.2]; decide⟩

/-- Claim C5 as amended: on the normal exit path a nonzero exit code is
classified `runtime_error` whatever stderr contains; `compilation_error` can
only come from the catch path, for a thrown message containing
`'compilation'` or `'compile'`. -/
theorem C5_amended_exit_code_classification
    (language code input executionId out err : String) (ec : Int) (stats : MemStats)
    (cfg : LangConfig) (h : containerConfigs language = some cfg) (hec : ec ≠ 0) :
    (DockerService.executeCode language code input executionId
        (WaitOutcome.completed out err ec) stats).status = EXECUTION_STATUS.RUNTIME_ERROR ∧
    ∀ msg : String, getErrorStatus msg = EXECUTION_STATUS.COMPILATION_ERROR →
      (containsSub (("compilation").data) ((toLowerCase msg).data)
        || containsSub (("compile").data) ((toLowerCase msg).data)) = true := by
  constructor
  · unfold DockerService.executeCode
    rw [h]
    show (if ec = 0 then EXECUTION_STATUS.SUCCESS else EXECUTION_STATUS.RUNTIME_ERROR) =
      EXECUTION_STATUS.RUNTIME_ERROR
    rw [if_neg hec]
  · intro msg hm
    unfold getErrorStatus at hm
    split at hm
    · exact absurd hm (by decide)
    · split at hm
      · exact absurd hm (by decide)
      · split at hm
        · assumption
        · exact absurd hm (by decide)

/-- Witness for the amended claim C5 at a concrete failed compilation. -/
theorem C5_amended_witness :
    (DockerService.executeCode "cpp" "x" "" "e2"
        (WaitOutcome.completed "" ("main.cpp:1: error") 1) ⟨0, 0⟩).status =
      EXECUTION_STATUS.RUNTIME_ERROR :=
  (C5_amended_exit_code_classification "cpp" "x" "" "e2" "" ("main.cpp:1: error") 1
    ⟨0, 0⟩ cppConfig rfl (by decide)).1

/-- Claim C4 as amended: in the Docker pipeline the Java source filename is
the fixed `Main.java` for every submission (and its container command
compiles `Main.java`); the class-name derivation — first public class, then
any class, default `Main` — exists only in the standalone `JavaExecutor`,
where a `public class Solution` source does yield `Solution`. -/
theorem C4_amended_fixed_filename
    (code input executionId out err : String) (ec : Int) (stats : MemStats) :
    (DockerService.executeCode "java" code input executionId
        (WaitOutcome.completed out err ec) stats).writtenFileName = some ("Main.java") ∧
    Helpers.generateFileName "java" executionId = "Main.java" ∧
    javaConfig.cmd = ["/bin/sh", "-c", "cd /app && javac Main.java && java Main"] ∧
    JavaExecutor.extractClassName solutionSource = "Solution" := by
  exact ⟨rfl, rfl, rfl, by decide⟩

/-- Claim C7 as amended: sanitization runs after the Screener (which matches
the raw source), and the sanitized source is exactly what is handed to the
Docker service to be written into the workspace. -/
theorem C7_amended_sanitize_after_screen
    (req : ExecRequest) (st : List Nat) (docker : DockerResult)
    (hlang : Helpers.validateLanguage req.language = true)
    (hval : (SecurityService.validateCode req.code req.language st).1.isValid = true)
    (hin : (SecurityService.validateInput req.input).isValid = true) :
    (CodeExecutionService.executeCode req st false docker).1.dockerArgs =
      some (req.language, SecurityService.sanitizeCode req.code,
        SecurityService.sanitizeInput req.input) := by
  unfold CodeExecutionService.executeCode
  simp only [hlang, hval, hin, Bool.not_true, Bool.not_false, if_true, if_false,
    Bool.false_eq_true, ite_false, ite_true]

/-- Witness for the amended claim C7 at a concrete accepted request. -/
theorem C7_amended_witness :
    (CodeExecutionService.executeCode ⟨"python", "print(42)", ""⟩ st0 false dummyDocker).1.dockerArgs
      = some ("python", "print(42)", "") :=
  C7_amended_sanitize_after_screen ⟨"python", "print(42)", ""⟩ st0 dummyDocker
    (by decide) (by decide) (by decide)

/-- Claim C8: when the deadline timer wins, the supervisor signal-kills the
container and the thrown `'Execution timeout'` is classified `timeout`, so
the result delivered for the execution has status `timeout`. -/
theorem C8_timeout_kill_and_status
    (language code input executionId : String) (stats : MemStats) (cfg : LangConfig)
    (h : containerConfigs language = some cfg) :
    (DockerService.executeCode language code input executionId
        WaitOutcome.timedOut stats).containerKilled = true ∧
    (DockerService.executeCode language code input executionId
        WaitOutcome.timedOut stats).status = EXECUTION_STATUS.TIMEOUT := by
  unfold DockerService.executeCode
  rw [h]
  refine ⟨rfl, ?_⟩
  show getErrorStatus ("Execution timeout") = EXECUTION_STATUS.TIMEOUT
  decide

/-- Witness for claim C8 at a concrete timed-out execution. -/
theorem C8_witness :
    (DockerService.executeCode "python" "while True: pass" "" "e3"
        WaitOutcome.timedOut ⟨0, 0⟩).containerKilled = true ∧
    (DockerService.executeCode "python" "while True: pass" "" "e3"
        WaitOutcome.timedOut ⟨0, 0⟩).status = EXECUTION_STATUS.TIMEOUT :=
  C8_timeout_kill_and_status "python" "while True: pass" "" "e3" ⟨0, 0⟩ pythonConfig rfl

/-- Claim C9: every container created for an execution — whatever the
language configuration — is built with network disabled, all capabilities
dropped, no-new-privileges, a PID limit of 50, and rlimits nofile 64/64 and
nproc 32/32. -/
theorem C9_sandbox_hardening
    (language code input executionId : String) (w : WaitOutcome) (stats : MemStats)
    (o : ContainerOptions)
    (h : (DockerService.executeCode language code input executionId w stats).containerOptions
      = some o) :
    o.networkMode = "none" ∧ o.capDrop = ["ALL"] ∧ o.securityOpt = ["no-new-privileges"] ∧
    o.pidsLimit = 50 ∧
    o.ulimits = [{ name := "nofile", soft := 64, hard := 64 },
                 { name := "nproc", soft := 32, hard := 32 }] := by
  unfold DockerService.executeCode at h
  cases hc : containerConfigs language with
  | none =>
    rw [hc] at h
    exact Option.noConfusion h
  | some cfg =>
    rw [hc] at h
    cases w with
    | completed out err ec =>
      cases Option.some.inj h
      exact ⟨rfl, rfl, rfl, rfl, rfl⟩
    | timedOut =>
      cases Option.some.inj h
      exact ⟨rfl, rfl, rfl, rfl, rfl⟩
    | failed msg =>
      exact Option.noConfusion h

/-- Witness for claim C9 at a concrete python execution. -/
theorem C9_witness :
    (buildContainerOptions pythonConfig (tempDirFor ("e1")) false).networkMode = "none" ∧
    (buildContainerOptions pythonConfig (tempDirFor ("e1")) false).capDrop = ["ALL"] ∧
    (buildContainerOptions pythonConfig (tempDirFor ("e1")) false).securityOpt
      = ["no-new-privileges"] ∧
    (buildContainerOptions pythonConfig (tempDirFor ("e1")) false).pidsLimit = 50 ∧
    (buildContainerOptions pythonConfig (tempDirFor ("e1")) false).ulimits
      = [{ name := "nofile", soft := 64, hard := 64 },
         { name := "nproc", soft := 32, hard := 32 }] :=
  C9_sandbox_hardening "python" "x" "" "e1" (WaitOutcome.completed "" "" 0) ⟨0, 0⟩
    (buildContainerOptions pythonConfig (tempDirFor ("e1")) false) rfl

/-- Claim C10 as amended: provided the language is supported and the source
passes code validation (which runs first), every request whose stdin trips
one of the malicious-input patterns — NUL, `../`, `<`, `>`, `javascript:`,
`data:` — while within the 10,000-character bound is answered with the exact
message `'Input validation failed: Input contains potentially malicious
content'` and the generic error status, before the sandbox (and hence the
workspace) is ever touched. -/
theorem C10_amended_input_rejection
    (req : ExecRequest) (st : List Nat) (userExceeded : Bool) (docker : DockerResult)
    (hlang : Helpers.validateLanguage req.language = true)
    (hval : (SecurityService.validateCode req.code req.language st).1.isValid = true)
    (hlen : req.input.data.length ≤ MAX_INPUT_LENGTH)
    (hmal : SecurityService.inputMalicious req.input.data = true) :
    (CodeExecutionService.executeCode req st userExceeded docker).1 =
      CodeExecutionService.createErrorResponse
        ("Input validation failed: Input contains potentially malicious content") := by
  have hiv : SecurityService.validateInput req.input =
      { isValid := false, errors := ["Input contains potentially malicious content"] } := by
    unfold SecurityService.validateInput
    have hl : ¬(¬ req.input.data.isEmpty = true ∧ req.input.data.length > MAX_INPUT_LENGTH) :=
      fun hcon => absurd hcon.2 (by omega)
    rw [if_neg hl]
    simp only [hmal, if_true, ite_true, List.nil_append]
    rfl
  unfold CodeExecutionService.executeCode
  simp only [hlang, hval, hiv, Bool.not_true, Bool.not_false, if_true, if_false,
    Bool.false_eq_true, ite_false, ite_true]
  decide

/-- Path-redaction passes are the identity on text containing no slash,
since each redaction prefix starts with a slash. -/
theorem replacePathRefs_no_slash (pre repl : List Char) (hpre : pre.head? = some '/') :
    ∀ (f : Nat) (s : List Char), (∀ c ∈ s, c ≠ '/') →
      Helpers.replacePathRefs pre repl f s = s := by
  intro f
  induction f with
  | zero => intro s _; rfl
  | succ f ih =>
    intro s hs
    cases s with
    | nil => rfl
    | cons c rest =>
      have hc : c ≠ '/' := hs c (List.mem_cons_self c rest)
      have hb : (('/' : Char) == c) = false := beq_eq_false_iff_ne.mpr (Ne.symm hc)
      have hnp : List.isPrefixOf pre (c :: rest) = false := by
        cases pre with
        | nil => simp at hpre
        | cons p ps =>
          have hp : p = '/' := by simpa using hpre
          subst hp
          simp [List.isPrefixOf, hb]
      have hcond : (List.isPrefixOf pre (c :: rest)
          && (Helpers.nonWsRun ((c :: rest).drop pre.length) != 0)) = false := by
        rw [hnp]
        rfl
      simp only [Helpers.replacePathRefs, hcond, Bool.false_eq_true, if_false]
      exact congrArg (c :: ·) (ih rest (fun x hx => hs x (List.mem_cons_of_mem c hx)))

/-- The composed redaction of `sanitizeOutput` is the identity on text
containing no slash. -/
theorem redactPaths_no_slash (s : List Char) (hs : ∀ c ∈ s, c ≠ '/') :
    Helpers.redactPaths s = s := by
  unfold Helpers.redactPaths Helpers.replaceAllRefs
  rw [replacePathRefs_no_slash _ _ (by decide) _ _ hs]
  rw [replacePathRefs_no_slash _ _ (by decide) _ _ hs]
  rw [replacePathRefs_no_slash _ _ (by decide) _ _ hs]

/-- Claim C3 (code bug): a captured output of 10,001 characters — well
within both the 100,000-byte cap the claim states and the
`MAX_OUTPUT_LENGTH = 100000` declared in `constants.js` — is nevertheless
truncated at 10,000 characters with the marker appended, because
`sanitizeOutput` shadows the constant with a local `MAX_OUTPUT_LENGTH =
10000`. -/
theorem C3_truncation_at_10000 :
    (String.mk (List.replicate 10001 'a')).data.length ≤ MAX_OUTPUT_LENGTH ∧
    Helpers.sanitizeOutput (String.mk (List.replicate 10001 'a')) =
      String.mk (List.replicate 10000 'a' ++ Helpers.OUTPUT_TRUNCATION_MARKER.data) ∧
    Helpers.sanitizeOutput (String.mk (List.replicate 10001 'a')) ≠
      String.mk (List.replicate 10001 'a') := by
  have hred : Helpers.redactPaths (String.mk (List.replicate 10001 'a')).data
      = List.replicate 10001 'a' :=
    redactPaths_no_slash _ (fun c hc => by
      rw [List.eq_of_mem_replicate hc]
      decide)
  have hne : (String.mk (List.replicate 10001 'a')).data.isEmpty = false := by decide
  have hmain : Helpers.sanitizeOutput (String.mk (List.replicate 10001 'a')) =
      String.mk (List.replicate 10000 'a' ++ Helpers.OUTPUT_TRUNCATION_MARKER.data) := by
    unfold Helpers.sanitizeOutput
    simp only [hne, Bool.false_eq_true, if_false]
    rw [hred]
    rw [List.length_replicate]
    rw [if_pos (by norm_num)]
    rw [List.take_replicate]
    norm_num
  refine ⟨?_, hmain, ?_⟩
  · show (List.replicate 10001 'a').length ≤ MAX_OUTPUT_LENGTH
    rw [List.length_replicate]
    norm_num [MAX_OUTPUT_LENGTH]
  · rw [hmain]
    intro h
    have h2 : List.replicate 10000 'a' ++ Helpers.OUTPUT_TRUNCATION_MARKER.data
        = List.replicate 10001 'a' := congrArg String.data h
    have h3 := congrArg List.length h2
    rw [List.length_append, List.length_replicate, List.length_replicate] at h3
    have hm : Helpers.OUTPUT_TRUNCATION_MARKER.data.length = 23 := by decide
    rw [hm] at h3
    exact absurd h3 (by norm_num)

/-- Witness for the amended claim C10: a benign python program with stdin
`a<b`, which satisfies the documented stdin constraints. -/
theorem C10_amended_witness :
    (CodeExecutionService.executeCode ⟨"python", "print(42)", "a<b"⟩ st0 false dummyDocker).1 =
      CodeExecutionService.createErrorResponse
        ("Input validation failed: Input contains potentially malicious content") :=
  C10_amended_input_rejection ⟨"python", "print(42)", "a<b"⟩ st0 false dummyDocker
    (by decide) (by decide) (by decide) (by decide)

end OnlineCompiler
